import Mathlib

/-!
Shallow embedding of the unified scan pipeline of the stock market dashboard
server (server.js together with config.js).  External dependencies (the Yahoo
Finance provider, the SQLite database and the Python analysis service) are
modelled as oracles supplied through a `ScanEnv` environment; the orchestration
logic itself is translated function by function from the source.  JavaScript
numbers are modelled as `Rat`, nullable values as `Option`, and thrown
exceptions as `Except` results.
-/

namespace StockDashboard

/-- One OHLCV record returned by `yahooFinance.historical`.  The `date` field
is modelled as an abstract timestamp. -/
structure Bar where
  date : Nat
  openPrice : Rat
  high : Rat
  low : Rat
  close : Rat
  volume : Rat
deriving DecidableEq

/-- One point of the trimmed history sent to clients
(`history.slice(-30).map(h => ({ date: h.date, close: h.close }))`). -/
structure HistPoint where
  date : Nat
  close : Rat
deriving DecidableEq

/-- A row of the `strategies` table. -/
structure StrategyDef where
  id : Nat
  name : String
  field : String
  operator : String
  value : Rat
  signal : String
deriving DecidableEq

/-- One entry of `customStrategyMatches` in an analysis response; `stype`
models the JavaScript field `type` (a Lean keyword). -/
structure StrategyMatch where
  name : String
  stype : String
deriving DecidableEq

/-- The indicator fields of an analysis response that the server reads
(`indicators.rsi` and `indicators.avgVolume20`). -/
structure Indicators where
  rsi : Option Rat
  avgVolume20 : Option Rat
deriving DecidableEq

/-- The body of a successful response of the Python analysis service, as
destructured in `analyzeAllStocks`. -/
structure AnalysisResult where
  indicators : Option Indicators
  signal : Option String
  recommendedSignal : Option String
  customStrategyMatches : Option (List StrategyMatch)
deriving DecidableEq

/-- A quote object returned by `yahooFinance.quote`; every field except the
symbol may be absent. -/
structure Quote where
  symbol : String
  longName : Option String
  shortName : Option String
  regularMarketPrice : Option Rat
  regularMarketChangePercent : Option Rat
  regularMarketVolume : Option Rat
  fiftyTwoWeekLow : Option Rat
  fiftyTwoWeekHigh : Option Rat
  currency : Option String
deriving DecidableEq

/-- The per-symbol record built in `analyzeAllStocks` and broadcast via the
`stockUpdate` event. -/
structure AnalyzedStock where
  symbol : String
  name : Option String
  price : Option Rat
  change : Option Rat
  volume : Option Rat
  fiftyTwoWeekLow : Option Rat
  fiftyTwoWeekHigh : Option Rat
  currency : Option String
  rsi : Option Rat
  indicators : Option Indicators
  signal : Option String
  recommendedSignal : Option String
  history : List HistPoint
  customStrategyMatches : List StrategyMatch
deriving DecidableEq

/-- The result of the spread `{ ...stock, score }` in
`getFastVolumeAccumulators`. -/
structure ScoredStock where
  stock : AnalyzedStock
  score : Rat
deriving DecidableEq

/-- One value of the `customStrategyResults` object: the strategy type and the
stocks collected for the strategy name. -/
structure StrategyGroup where
  stype : String
  stocks : List AnalyzedStock
deriving DecidableEq

/-- The socket events emitted by `fetchAndEmitStockUpdates`. -/
inductive Event where
  | scanStatus (message : String) (step : String)
  | stockUpdate (stocks : List AnalyzedStock)
  | topRecommendationsUpdate (buys : List AnalyzedStock) (sells : List AnalyzedStock)
  | customStrategiesUpdate (strategies : List (String × StrategyGroup))
  | fastVolumeAccumulatorsUpdate (stocks : List ScoredStock)
  | fetchError (error : String)
deriving DecidableEq

/-- JavaScript `a || b` on an optional string: `a` is used unless it is absent
or empty (falsy). -/
def jsOrStr (a b : Option String) : Option String :=
  match a with
  | some s => if s = "" then b else some s
  | none => b

/-- JavaScript `a || d` on an optional number: `a` is used unless it is absent
or zero (falsy). -/
def jsOrNum (a : Option Rat) (d : Rat) : Rat :=
  match a with
  | some v => if v = 0 then d else v
  | none => d

/-- JavaScript truthiness of an optional number (`!x` holds when the value is
absent or zero). -/
def numTruthy (a : Option Rat) : Bool :=
  match a with
  | some v => v != 0
  | none => false

/-- Lookup in a JavaScript `Map` built with `new Map(pairs)`: a later entry
with the same key overwrites an earlier one. -/
def mapGet {β : Type} (entries : List (String × β)) (s : String) : Option β :=
  (entries.reverse.find? (fun p => p.1 == s)).map (fun p => p.2)

/-- The slicing loop `for (let i = 0; i < items.length; i += CHUNK_SIZE)`
with `items.slice(i, i + CHUNK_SIZE)`: consecutive chunks of size `n`.
(The degenerate case `n = 0`, which never occurs in the source where the chunk
sizes are the constants 25 and 10, returns a single chunk.) -/
def chunksOf {α : Type} (n : Nat) (l : List α) : List (List α) :=
  match l with
  | [] => []
  | x :: xs =>
    if h2 : n = 0 then [x :: xs]
    else (x :: xs).take n :: chunksOf n ((x :: xs).drop n)
termination_by l.length
decreasing_by
  simp only [List.length_drop, List.length_cons]
  exact Nat.sub_lt (Nat.succ_pos xs.length) (Nat.pos_of_ne_zero h2)

/-- Observable actions of a chunked stage: dispatching one chunk of work, and
the inter-chunk `setTimeout` pause. -/
inductive ChunkEvent where
  | dispatch (chunk : List String)
  | pause (ms : Nat)
deriving DecidableEq

/-- The event trace of a chunked loop: each chunk is dispatched, and a pause of
`ms` milliseconds is inserted after a chunk exactly when more chunks remain
(`if (i + CHUNK_SIZE < symbolsToFetch.length)`), never after the last. -/
def chunkTrace (ms : Nat) : List (List String) → List ChunkEvent
  | [] => []
  | [c] => [ChunkEvent.dispatch c]
  | c :: c2 :: rest => ChunkEvent.dispatch c :: ChunkEvent.pause ms :: chunkTrace ms (c2 :: rest)

/-- Adding a list of symbols to a JavaScript `Set` one by one, keeping
insertion order (the order produced by `Array.from`). -/
def addAll (acc : List String) (l : List String) : List String :=
  l.foldl (fun a s => if a.contains s then a else a ++ [s]) acc

/-- The function `getCombinedTrackedSymbols`: the union of the configured default symbols
and the distinct watchlist symbols; a database error (`dbSymbols = none`)
falls back to the defaults alone. -/
def getCombinedTrackedSymbols (defaults : List String) (dbSymbols : Option (List String)) : List String :=
  let base := addAll [] defaults
  match dbSymbols with
  | some rows => addAll base rows
  | none => base

/-- The values shipped in config.js (`defaultSymbols`). -/
def configDefaultSymbols : List String := ["^NSEI", "RELIANCE.NS"]

/-- The values shipped in config.js (`fnoSymbols`). -/
def configFnoSymbols : List String := ["RELIANCE.NS"]

/-- Outcome of the per-symbol retry loop in `fetchAllHistoricalData`:
the history finally used, the number of attempts actually made, and the
backoff delays (in ms) slept between attempts. -/
structure RetryResult where
  history : List Bar
  attemptsMade : Nat
  delays : List Nat
deriving DecidableEq

/-- The retry loop `for (let attempt = 1; attempt <= maxRetries; attempt++)`:
`outcomes k` is the result of the k-th call of `yahooFinance.historical`.
On a failed attempt with retries remaining the loop sleeps `500 * attempt`
milliseconds; when every attempt fails it returns an empty array. -/
def retryGo (outcomes : Nat → Except String (List Bar)) (attempt : Nat) : Nat → RetryResult
  | 0 => { history := [], attemptsMade := attempt - 1, delays := [] }
  | remaining + 1 =>
    match outcomes attempt with
    | Except.ok h => { history := h, attemptsMade := attempt, delays := [] }
    | Except.error _ =>
      let rest := retryGo outcomes (attempt + 1) remaining
      if remaining ≠ 0 then
        { history := rest.history, attemptsMade := rest.attemptsMade
          delays := 500 * attempt :: rest.delays }
      else rest

/-- The constant `const maxRetries = 2`. -/
def maxRetries : Nat := 2

/-- The whole per-symbol historical fetch with retries. -/
def fetchHistoricalOne (outcomes : Nat → Except String (List Bar)) : RetryResult :=
  retryGo outcomes 1 maxRetries

/-- The constant `CHUNK_SIZE = 25` in `fetchAllHistoricalData`. -/
def historicalChunkSize : Nat := 25

/-- The constant `CHUNK_SIZE = 10` in `analyzeAllStocks`. -/
def analysisChunkSize : Nat := 10

/-- The function `fetchAllHistoricalData`: the symbol list is processed in chunks of 25;
a chunk whose 20s `promiseWithTimeout` fires is filled with empty arrays;
otherwise each symbol gets the result of its retry loop.  The final value is
the pair list from which the `historicalDataMap` is built
(`new Map(symbolsToFetch.map((symbol, i) => [symbol, allHistoricalData[i] || []]))`). -/
def fetchAllHistoricalData (symbolsToFetch : List String)
    (outcomes : String → Nat → Except String (List Bar))
    (chunkTimedOut : Nat → Bool) : List (String × List Bar) :=
  ((chunksOf historicalChunkSize symbolsToFetch).enum.map (fun jc =>
    if chunkTimedOut jc.1 then jc.2.map (fun s => (s, ([] : List Bar)))
    else jc.2.map (fun s => (s, (fetchHistoricalOne (outcomes s)).history)))).flatten

/-- The dispatch/pause trace of the historical stage (chunk size 25, 250 ms
between consecutive chunks). -/
def fetchAllHistoricalDataTrace (symbolsToFetch : List String) : List ChunkEvent :=
  chunkTrace 250 (chunksOf historicalChunkSize symbolsToFetch)

/-- The body of the per-symbol promise inside `analyzeAllStocks`: absent quote,
absent or empty history, or a failed analysis call yield `null`; otherwise the
broadcast record is built from the quote and the analysis response. -/
def analyzeOne (quotesMap : String → Option Quote)
    (historicalDataMap : String → Option (List Bar))
    (strategies : List StrategyDef)
    (analyzeFn : Quote → List Bar → List StrategyDef → Option AnalysisResult)
    (symbol : String) : Option AnalyzedStock :=
  match quotesMap symbol with
  | none => none
  | some stockQuote =>
    match historicalDataMap symbol with
    | none => none
    | some history =>
      if history.length = 0 then none
      else
        match analyzeFn stockQuote history strategies with
        | none => none
        | some analysisResult =>
          some {
            symbol := stockQuote.symbol
            name := jsOrStr stockQuote.longName stockQuote.shortName
            price := stockQuote.regularMarketPrice
            change := stockQuote.regularMarketChangePercent
            volume := stockQuote.regularMarketVolume
            fiftyTwoWeekLow := stockQuote.fiftyTwoWeekLow
            fiftyTwoWeekHigh := stockQuote.fiftyTwoWeekHigh
            currency := stockQuote.currency
            rsi := match analysisResult.indicators with
              | some ind => ind.rsi
              | none => none
            indicators := analysisResult.indicators
            signal := analysisResult.signal
            recommendedSignal := analysisResult.recommendedSignal
            history := (history.drop (history.length - 30)).map
              (fun h => { date := h.date, close := h.close })
            customStrategyMatches := analysisResult.customStrategyMatches.getD [] }

/-- The function `analyzeAllStocks`: chunks of 10 symbols; within a chunk every symbol is
analyzed and the `null` results are filtered out
(`chunkResults.filter(data => data !== null)`). -/
def analyzeAllStocks (symbolsToFetch : List String)
    (quotesMap : String → Option Quote)
    (historicalDataMap : String → Option (List Bar))
    (strategies : List StrategyDef)
    (analyzeFn : Quote → List Bar → List StrategyDef → Option AnalysisResult) :
    List AnalyzedStock :=
  ((chunksOf analysisChunkSize symbolsToFetch).map (fun chunk =>
    (chunk.map (analyzeOne quotesMap historicalDataMap strategies analyzeFn)).filterMap id)).flatten

/-- The dispatch/pause trace of the analysis stage (chunk size 10, 250 ms
between consecutive chunks). -/
def analyzeAllStocksTrace (symbolsToFetch : List String) : List ChunkEvent :=
  chunkTrace 250 (chunksOf analysisChunkSize symbolsToFetch)

/-- The per-stock scoring step inside `getFastVolumeAccumulators`: stocks that
are not up for the day or lack usable volume data get score `-1`; otherwise
the score is `(volumeRatio * 0.7) + (priceChange * 0.3)`. -/
def scoreStock (stock : AnalyzedStock) : ScoredStock :=
  let priceChange := jsOrNum stock.change 0
  let volume := stock.volume
  let avgVolume := stock.indicators.bind (fun i => i.avgVolume20)
  if priceChange ≤ 0 ∨ numTruthy volume = false ∨ numTruthy avgVolume = false then
    { stock := stock, score := -1 }
  else
    { stock := stock
      score := (volume.getD 0 / avgVolume.getD 0) * 0.7 + priceChange * 0.3 }

/-- The function `getFastVolumeAccumulators`: restrict to F&O symbols, score each stock,
keep strictly positive scores, sort by descending score (stable) and return
the top 5. -/
def getFastVolumeAccumulators (allStocks : List AnalyzedStock) (fno : List String) :
    List ScoredStock :=
  let fnoStocks := allStocks.filter (fun s => fno.contains s.symbol)
  let scoredStocks :=
    ((fnoStocks.map scoreStock).filter (fun stock => decide (0 < stock.score))).mergeSort
      (fun a b => decide (b.score ≤ a.score))
  scoredStocks.take 5

/-- The `topBuys` computation in `fetchAndEmitStockUpdates`: STRONG BUY stocks
sorted ascending by `(rsi || 100)`, first five. -/
def topBuysOf (mappedData : List AnalyzedStock) : List AnalyzedStock :=
  ((mappedData.filter (fun stock => stock.recommendedSignal == some "STRONG BUY")).mergeSort
    (fun a b => decide (jsOrNum a.rsi 100 ≤ jsOrNum b.rsi 100))).take 5

/-- The `topSells` computation in `fetchAndEmitStockUpdates`: STRONG SELL
stocks sorted descending by `(rsi || 0)`, first five. -/
def topSellsOf (mappedData : List AnalyzedStock) : List AnalyzedStock :=
  ((mappedData.filter (fun stock => stock.recommendedSignal == some "STRONG SELL")).mergeSort
    (fun a b => decide (jsOrNum b.rsi 0 ≤ jsOrNum a.rsi 0))).take 5

/-- Appending one stock to the group of one matched strategy inside the
`customStrategyResults` aggregation (object keys keep insertion order; an
existing key keeps its position). -/
def addStockToGroup (acc : List (String × StrategyGroup)) (stockData : AnalyzedStock)
    (m : StrategyMatch) : List (String × StrategyGroup) :=
  if acc.any (fun p => p.1 == m.name) then
    acc.map (fun p =>
      if p.1 == m.name then (p.1, { p.2 with stocks := p.2.stocks ++ [stockData] }) else p)
  else
    acc ++ [(m.name, { stype := m.stype, stocks := [stockData] })]

/-- The `mappedData.forEach(...)` aggregation of custom strategy matches. -/
def collectStrategyResults (mappedData : List AnalyzedStock) : List (String × StrategyGroup) :=
  mappedData.foldl (fun acc stockData =>
    stockData.customStrategyMatches.foldl
      (fun acc2 m => addStockToGroup acc2 stockData m) acc) []

/-- The per-strategy sort and slice: stocks sorted by descending
`(change || 0)` and cut to the top 10. -/
def sortStrategyResults (results : List (String × StrategyGroup)) :
    List (String × StrategyGroup) :=
  results.map (fun p => (p.1, { p.2 with stocks :=
    (p.2.stocks.mergeSort
      (fun a b => decide (jsOrNum b.change 0 ≤ jsOrNum a.change 0))).take 10 }))

/-- The environment a scan cycle runs against: the health flag, the
configuration lists, the database contents, and oracles for the three remote
stages.  `quoteResult` is the settled outcome of the bulk
`yahooFinance.quote` call (an `error` covers both a rejected call and the 20s
`promiseWithTimeout` rejection); `histOutcomes s k` is the outcome of the k-th
historical attempt for symbol `s`; `histChunkTimedOut j` tells whether the 20s
timeout of historical chunk `j` fired; `analyzeFn` is the settled outcome of
`analyzeWithPythonService` (`none` on any failure, including a breaker-open
fast-fail). -/
structure ScanEnv where
  isPythonServiceHealthy : Bool
  defaultSymbols : List String
  fnoSymbols : List String
  dbWatchlistSymbols : Option (List String)
  strategies : List StrategyDef
  quoteResult : Except String (List Quote)
  histOutcomes : String → Nat → Except String (List Bar)
  histChunkTimedOut : Nat → Bool
  analyzeFn : Quote → List Bar → List StrategyDef → Option AnalysisResult

/-- What one invocation of `fetchAndEmitStockUpdates` did: the socket events
it emitted, in order, and which remote stages it reached. -/
structure ScanOutput where
  events : List Event
  quoteCalled : Bool
  historicalCalled : Bool
  analysisCalled : Bool
deriving DecidableEq

/-- The function `fetchAndEmitStockUpdates`: the unified scan cycle.  The gate aborts when
the Python service is unhealthy; an empty symbol universe aborts silently; a
quote failure aborts with a scanStatus error and a fetchError event; otherwise
the three stages run and the full result set is broadcast. -/
def fetchAndEmitStockUpdates (env : ScanEnv) : ScanOutput :=
  if env.isPythonServiceHealthy = false then
    { events := [Event.scanStatus "Scan paused: Analysis service is offline." "error"]
      quoteCalled := false, historicalCalled := false, analysisCalled := false }
  else
    let symbolsToFetch := getCombinedTrackedSymbols env.defaultSymbols env.dbWatchlistSymbols
    if symbolsToFetch.length = 0 then
      { events := [], quoteCalled := false, historicalCalled := false, analysisCalled := false }
    else
      match env.quoteResult with
      | Except.error msg =>
        { events := [Event.scanStatus ("Scan failed: " ++ msg) "error",
            Event.fetchError "Unified scan failed. The data provider might be temporarily unavailable."]
          quoteCalled := true, historicalCalled := false, analysisCalled := false }
      | Except.ok quoteResults =>
        let quotesMap := mapGet (quoteResults.map (fun q => (q.symbol, q)))
        let historicalDataMap :=
          mapGet (fetchAllHistoricalData symbolsToFetch env.histOutcomes env.histChunkTimedOut)
        let mappedData :=
          analyzeAllStocks symbolsToFetch quotesMap historicalDataMap env.strategies env.analyzeFn
        let customStrategyResults := sortStrategyResults (collectStrategyResults mappedData)
        let topBuys := topBuysOf mappedData
        let topSells := topSellsOf mappedData
        let fastVolumeAccumulators := getFastVolumeAccumulators mappedData env.fnoSymbols
        { events := [Event.stockUpdate mappedData,
            Event.topRecommendationsUpdate topBuys topSells,
            Event.customStrategiesUpdate customStrategyResults,
            Event.fastVolumeAccumulatorsUpdate fastVolumeAccumulators,
            Event.scanStatus "Scan complete. Broadcasting updates." "done"]
          quoteCalled := true, historicalCalled := true, analysisCalled := true }

/-- The events that can change the `isPythonServiceHealthy` flag: a health
probe settling (`checkPythonServiceHealth`), and the breaker `open` and
`close` handlers. -/
inductive HealthEvent where
  | probeOk
  | probeFail
  | breakerOpened
  | breakerClosed
deriving DecidableEq

/-- The declaration `let isPythonServiceHealthy = false` at process start. -/
def initialPythonServiceHealthy : Bool := false

/-- The effect of one health-affecting event on the flag: a successful probe
and a breaker close set it to true, a failed probe and a breaker open set it
to false (the edge-triggered client notifications do not change the value). -/
def stepHealth (_healthy : Bool) (e : HealthEvent) : Bool :=
  match e with
  | HealthEvent.probeOk => true
  | HealthEvent.probeFail => false
  | HealthEvent.breakerOpened => false
  | HealthEvent.breakerClosed => true

/-- The value of the flag after a sequence of health-affecting events since
process start. -/
def runHealth (events : List HealthEvent) : Bool :=
  events.foldl stepHealth initialPythonServiceHealthy

/-- The options object `breakerOptions` in server.js. -/
structure BreakerConfig where
  timeout : Nat
  errorThresholdPercentage : Nat
  resetTimeout : Nat
deriving DecidableEq

/-- The options `timeout: 15000, errorThresholdPercentage: 50, resetTimeout: 30000`. -/
def breakerOptions : BreakerConfig :=
  { timeout := 15000, errorThresholdPercentage := 50, resetTimeout := 30000 }

/-- Modelled from the spec: the breaker states CLOSED / OPEN / HALF_OPEN of
section 4.1 (the breaker implementation itself lives in the opossum library,
not in this repository). -/
inductive BreakerState where
  | closed
  | opened
  | halfOpen
deriving DecidableEq

/-- Modelled from the spec: breaker bookkeeping — the state, the rolling
failure/success counters of the observation window, and the time the breaker
last opened. -/
structure Breaker where
  state : BreakerState
  failureCount : Nat
  successCount : Nat
  openedAt : Nat
deriving DecidableEq

/-- How the wrapped dependency would behave on one call: it settles
successfully after `durationMs` milliseconds, or it fails. -/
inductive CallOutcome where
  | success (durationMs : Nat)
  | failure
deriving DecidableEq

/-- What the caller of the breaker observes. -/
inductive CallResult where
  | ok
  | err
  | breakerOpenErr
deriving DecidableEq

/-- One call through the breaker: whether the wrapped dependency was actually
invoked, and the observed result.  `breakerOpenErr` is the distinguished
fast-fail (`EOPENBREAKER`). -/
structure CallEffect where
  invoked : Bool
  result : CallResult
deriving DecidableEq

/-- Modelled from the spec: a request is bounded by the configured hard
timeout; a timeout counts as a failure for the ratio calculation. -/
def isFailureOutcome (cfg : BreakerConfig) (o : CallOutcome) : Bool :=
  match o with
  | CallOutcome.success d => cfg.timeout ≤ d
  | CallOutcome.failure => true

/-- Modelled from the spec: the single HALF_OPEN trial call — success closes
the breaker and resets the counters, failure reopens it with a fresh
cool-down. -/
def breakerTrial (cfg : BreakerConfig) (b : Breaker) (now : Nat) (o : CallOutcome) :
    Breaker × CallEffect :=
  if isFailureOutcome cfg o then
    ({ state := BreakerState.opened, failureCount := b.failureCount
       successCount := b.successCount, openedAt := now },
     { invoked := true, result := CallResult.err })
  else
    ({ state := BreakerState.closed, failureCount := 0, successCount := 0
       openedAt := b.openedAt },
     { invoked := true, result := CallResult.ok })

/-- Modelled from the spec (section 4.1, the opossum breaker is not part of
this repository): one sequential call through the circuit breaker.  CLOSED
passes the call through and opens once the windowed failure ratio reaches the
threshold; OPEN fast-fails without invoking the dependency until the
cool-down has elapsed, after which the next call is the single HALF_OPEN
trial. -/
def breakerCall (cfg : BreakerConfig) (b : Breaker) (now : Nat) (o : CallOutcome) :
    Breaker × CallEffect :=
  match b.state with
  | BreakerState.closed =>
    if isFailureOutcome cfg o then
      let f := b.failureCount + 1
      if cfg.errorThresholdPercentage * (f + b.successCount) ≤ 100 * f then
        ({ state := BreakerState.opened, failureCount := f
           successCount := b.successCount, openedAt := now },
         { invoked := true, result := CallResult.err })
      else
        ({ b with failureCount := f }, { invoked := true, result := CallResult.err })
    else
      ({ b with successCount := b.successCount + 1 },
       { invoked := true, result := CallResult.ok })
  | BreakerState.opened =>
    if now < b.openedAt + cfg.resetTimeout then
      (b, { invoked := false, result := CallResult.breakerOpenErr })
    else
      breakerTrial cfg b now o
  | BreakerState.halfOpen => breakerTrial cfg b now o

/-- Recognizer for dispatch events of a chunk trace. -/
def isDispatch : ChunkEvent → Bool
  | ChunkEvent.dispatch _ => true
  | ChunkEvent.pause _ => false

/-- Recognizer for pause events of a chunk trace. -/
def isPause : ChunkEvent → Bool
  | ChunkEvent.dispatch _ => false
  | ChunkEvent.pause _ => true

/-- Recognizer for the stock-data broadcast events (as opposed to status and
fetch-error events). -/
def isStockDataEvent : Event → Bool
  | Event.stockUpdate _ => true
  | Event.topRecommendationsUpdate _ _ => true
  | Event.customStrategiesUpdate _ => true
  | Event.fastVolumeAccumulatorsUpdate _ => true
  | Event.scanStatus _ _ => false
  | Event.fetchError _ => false

/-- A sample quote used by concrete witnesses. -/
def sampleQuote : Quote :=
  { symbol := "RELIANCE.NS"
    longName := some "Reliance Industries Limited"
    shortName := some "RELIANCE"
    regularMarketPrice := some 2500
    regularMarketChangePercent := some 5
    regularMarketVolume := some 300
    fiftyTwoWeekLow := some 2000
    fiftyTwoWeekHigh := some 3000
    currency := some "INR" }

/-- A sample historical bar used by concrete witnesses. -/
def sampleBar : Bar :=
  { date := 1, openPrice := 2400, high := 2550, low := 2350, close := 2500, volume := 250 }

/-- A sample analysis response used by concrete witnesses. -/
def sampleAnalysis : AnalysisResult :=
  { indicators := some { rsi := some 28, avgVolume20 := some 100 }
    signal := some "BUY"
    recommendedSignal := some "STRONG BUY"
    customStrategyMatches := some [{ name := "Momentum", stype := "Bullish" }] }

/-- An environment whose service-availability flag is down (gate closed). -/
def envOffline : ScanEnv :=
  { isPythonServiceHealthy := false
    defaultSymbols := configDefaultSymbols
    fnoSymbols := configFnoSymbols
    dbWatchlistSymbols := some ["TCS.NS"]
    strategies := []
    quoteResult := Except.ok [sampleQuote]
    histOutcomes := fun _ _ => Except.ok [sampleBar]
    histChunkTimedOut := fun _ => false
    analyzeFn := fun _ _ _ => some sampleAnalysis }

/-- An environment for the startup scenario of the health-flag claim. -/
def envStartup : ScanEnv :=
  { isPythonServiceHealthy := initialPythonServiceHealthy
    defaultSymbols := configDefaultSymbols
    fnoSymbols := configFnoSymbols
    dbWatchlistSymbols := none
    strategies := []
    quoteResult := Except.ok [sampleQuote]
    histOutcomes := fun _ _ => Except.ok [sampleBar]
    histChunkTimedOut := fun _ => false
    analyzeFn := fun _ _ _ => some sampleAnalysis }

/-- A healthy environment whose bulk quote call times out. -/
def envQuoteTimeout : ScanEnv :=
  { isPythonServiceHealthy := true
    defaultSymbols := configDefaultSymbols
    fnoSymbols := configFnoSymbols
    dbWatchlistSymbols := some []
    strategies := []
    quoteResult := Except.error "Yahoo Finance quote API call timed out"
    histOutcomes := fun _ _ => Except.ok [sampleBar]
    histChunkTimedOut := fun _ => false
    analyzeFn := fun _ _ _ => some sampleAnalysis }

/-- A healthy environment whose resolved symbol universe is empty: no
configured default symbols and no watchlist rows. -/
def envNoSymbols : ScanEnv :=
  { isPythonServiceHealthy := true
    defaultSymbols := []
    fnoSymbols := configFnoSymbols
    dbWatchlistSymbols := some []
    strategies := []
    quoteResult := Except.ok [sampleQuote]
    histOutcomes := fun _ _ => Except.ok [sampleBar]
    histChunkTimedOut := fun _ => false
    analyzeFn := fun _ _ _ => some sampleAnalysis }

/-- A neutral analyzed stock whose fields concrete examples override. -/
def baseStock : AnalyzedStock :=
  { symbol := "X"
    name := none
    price := none
    change := none
    volume := none
    fiftyTwoWeekLow := none
    fiftyTwoWeekHigh := none
    currency := none
    rsi := none
    indicators := none
    signal := none
    recommendedSignal := none
    history := []
    customStrategyMatches := [] }

/-- A STRONG BUY stock whose RSI is 50. -/
def stockRsi50 : AnalyzedStock :=
  { baseStock with symbol := "A", rsi := some 50, recommendedSignal := some "STRONG BUY" }

/-- A STRONG BUY stock whose RSI is 0 — falsy in JavaScript, so the sort key
`(rsi || 100)` treats it as 100. -/
def stockRsi0 : AnalyzedStock :=
  { baseStock with symbol := "B", rsi := some 0, recommendedSignal := some "STRONG BUY" }

/-- A fast-accumulator candidate matching the numeric example of the spec:
percent change 5, volume 300, 20-day average volume 100. -/
def accumStock : AnalyzedStock :=
  { baseStock with
    symbol := "RELIANCE.NS"
    change := some 5
    volume := some 300
    indicators := some { rsi := some 60, avgVolume20 := some 100 } }

/-- The analyzed stock that `analyzeAllStocks` builds from `sampleQuote`, one
`sampleBar` of history and `sampleAnalysis`. -/
def sampleAnalyzedStock : AnalyzedStock :=
  { symbol := "RELIANCE.NS"
    name := some "Reliance Industries Limited"
    price := some 2500
    change := some 5
    volume := some 300
    fiftyTwoWeekLow := some 2000
    fiftyTwoWeekHigh := some 3000
    currency := some "INR"
    rsi := some 28
    indicators := some { rsi := some 28, avgVolume20 := some 100 }
    signal := some "BUY"
    recommendedSignal := some "STRONG BUY"
    history := [{ date := 1, close := 2500 }]
    customStrategyMatches := [{ name := "Momentum", stype := "Bullish" }] }

/-- Twelve symbols: one historical chunk of 25 but two analysis chunks of 10. -/
def syms12 : List String :=
  ["S01", "S02", "S03", "S04", "S05", "S06", "S07", "S08", "S09", "S10", "S11", "S12"]

/-! ### Helper lemmas -/

theorem chunksOf_flatten {α : Type} : ∀ (n : Nat) (l : List α), (chunksOf n l).flatten = l
  | _, [] => by simp [chunksOf]
  | n, x :: xs => by
    rw [chunksOf]
    by_cases h : n = 0
    · simp [h]
    · rw [dif_neg h]
      rw [List.flatten_cons]
      rw [chunksOf_flatten n ((x :: xs).drop n)]
      exact List.take_append_drop n (x :: xs)
termination_by n l => l.length
decreasing_by
  simp only [List.length_drop, List.length_cons]
  exact Nat.sub_lt (Nat.succ_pos xs.length) (Nat.pos_of_ne_zero h)

theorem chunksOf_length {α : Type} : ∀ (n : Nat), n ≠ 0 → ∀ (l : List α),
    (chunksOf n l).length = (l.length + (n - 1)) / n
  | n, hn, [] => by
    simp only [chunksOf, List.length_nil, Nat.zero_add]
    rw [Nat.div_eq_of_lt (by omega)]
  | n, hn, x :: xs => by
    rw [chunksOf, dif_neg hn]
    rw [List.length_cons, chunksOf_length n hn ((x :: xs).drop n)]
    simp only [List.length_drop, List.length_cons]
    by_cases hm : xs.length + 1 ≤ n
    · have h0 : xs.length + 1 - n = 0 := by omega
      have hL : (0 + (n - 1)) / n = 0 := by
        rw [Nat.zero_add]
        exact Nat.div_eq_of_lt (by omega)
      have hR : (xs.length + 1 + (n - 1)) / n = 1 := Nat.div_eq_of_lt_le (by omega) (by omega)
      rw [h0, hL, hR]
    · have harg : xs.length + 1 + (n - 1) = (xs.length + 1 - n + (n - 1)) + n := by omega
      rw [harg, Nat.add_div_right _ (Nat.pos_of_ne_zero hn)]
termination_by n _ l => l.length
decreasing_by
  simp only [List.length_drop, List.length_cons]
  exact Nat.sub_lt (Nat.succ_pos xs.length) (Nat.pos_of_ne_zero hn)

theorem analyzeAllStocks_eq_filterMap (symbolsToFetch : List String)
    (qm : String → Option Quote) (hm : String → Option (List Bar))
    (strategies : List StrategyDef)
    (analyzeFn : Quote → List Bar → List StrategyDef → Option AnalysisResult) :
    analyzeAllStocks symbolsToFetch qm hm strategies analyzeFn =
      symbolsToFetch.filterMap (analyzeOne qm hm strategies analyzeFn) := by
  unfold analyzeAllStocks
  have h1 : ∀ c : List String,
      (c.map (analyzeOne qm hm strategies analyzeFn)).filterMap id =
        c.filterMap (analyzeOne qm hm strategies analyzeFn) := by
    intro c
    rw [List.filterMap_map]
    rfl
  calc ((chunksOf analysisChunkSize symbolsToFetch).map (fun chunk =>
          (chunk.map (analyzeOne qm hm strategies analyzeFn)).filterMap id)).flatten
      = ((chunksOf analysisChunkSize symbolsToFetch).map (fun chunk =>
          chunk.filterMap (analyzeOne qm hm strategies analyzeFn))).flatten := by
        simp only [h1]
    _ = ((chunksOf analysisChunkSize symbolsToFetch).flatten).filterMap
          (analyzeOne qm hm strategies analyzeFn) :=
        (List.filterMap_flatten _ _).symm
    _ = symbolsToFetch.filterMap (analyzeOne qm hm strategies analyzeFn) := by
        rw [chunksOf_flatten]

theorem find?_map_pair {β : Type} (f : String → β) :
    ∀ (m : List String) (s : String), s ∈ m →
      (m.map (fun x => (x, f x))).find? (fun p => p.1 == s) = some (s, f s)
  | [], s, h => by cases h
  | x :: xs, s, h => by
    simp only [List.map_cons, List.find?_cons]
    by_cases hx : x = s
    · subst hx
      simp
    · have hb : (x == s) = false := by simp [hx]
      simp only [hb]
      exact find?_map_pair f xs s (by
        cases List.mem_cons.mp h with
        | inl h1 => exact absurd h1.symm hx
        | inr h2 => exact h2)

theorem mapGet_map_self {β : Type} (f : String → β) (l : List String) (s : String)
    (h : s ∈ l) : mapGet (l.map (fun x => (x, f x))) s = some (f s) := by
  unfold mapGet
  rw [← List.map_reverse]
  rw [find?_map_pair f l.reverse s (List.mem_reverse.mpr h)]
  rfl

theorem fetchAllHistoricalData_no_timeout (syms : List String)
    (ocs : String → Nat → Except String (List Bar)) (ct : Nat → Bool)
    (hct : ∀ j, ct j = false) :
    fetchAllHistoricalData syms ocs ct =
      syms.map (fun s => (s, (fetchHistoricalOne (ocs s)).history)) := by
  unfold fetchAllHistoricalData
  have h1 : ((chunksOf historicalChunkSize syms).enum.map (fun jc =>
      if ct jc.1 then jc.2.map (fun s => (s, ([] : List Bar)))
      else jc.2.map (fun s => (s, (fetchHistoricalOne (ocs s)).history)))) =
      (chunksOf historicalChunkSize syms).enum.map (fun jc =>
        jc.2.map (fun s => (s, (fetchHistoricalOne (ocs s)).history))) := by
    apply List.map_congr_left
    intro jc _
    rw [hct jc.1]
    simp
  rw [h1]
  have h2 : (chunksOf historicalChunkSize syms).enum.map (fun jc =>
      jc.2.map (fun s => (s, (fetchHistoricalOne (ocs s)).history))) =
      (chunksOf historicalChunkSize syms).map (fun c =>
        c.map (fun s => (s, (fetchHistoricalOne (ocs s)).history))) := by
    conv_rhs => rw [← List.enum_map_snd (chunksOf historicalChunkSize syms)]
    rw [List.map_map]
    rfl
  rw [h2, ← List.map_flatten, chunksOf_flatten]

theorem scan_skips_when_unhealthy (env : ScanEnv)
    (h : env.isPythonServiceHealthy = false) :
    fetchAndEmitStockUpdates env =
      { events := [Event.scanStatus "Scan paused: Analysis service is offline." "error"]
        quoteCalled := false, historicalCalled := false, analysisCalled := false } := by
  simp [fetchAndEmitStockUpdates, h]

theorem mapGet_quote_symbol (quotes : List Quote) (s : String) (q : Quote)
    (h : mapGet (quotes.map (fun q => (q.symbol, q))) s = some q) : q.symbol = s := by
  unfold mapGet at h
  cases hf : (quotes.map (fun q => (q.symbol, q))).reverse.find? (fun p => p.1 == s) with
  | none => rw [hf] at h; cases h
  | some pair =>
    rw [hf] at h
    have hp := List.find?_some hf
    have hm := List.mem_of_find?_eq_some hf
    rw [List.mem_reverse, List.mem_map] at hm
    obtain ⟨q', _, hq'⟩ := hm
    have h2 : pair.2 = q := by simpa using h
    cases h2
    cases hq'
    exact eq_of_beq hp

theorem chunkTrace_dispatch_count (ms : Nat) : ∀ cs : List (List String),
    ((chunkTrace ms cs).filter isDispatch).length = cs.length
  | [] => by simp [chunkTrace]
  | [c] => by simp [chunkTrace, isDispatch]
  | c :: c2 :: rest => by
    simp [chunkTrace, isDispatch, chunkTrace_dispatch_count ms (c2 :: rest)]

theorem chunkTrace_pause_filter (ms : Nat) : ∀ cs : List (List String),
    (chunkTrace ms cs).filter isPause = List.replicate (cs.length - 1) (ChunkEvent.pause ms)
  | [] => by simp [chunkTrace]
  | [c] => by simp [chunkTrace, isPause]
  | c :: c2 :: rest => by
    simp [chunkTrace, isPause, chunkTrace_pause_filter ms (c2 :: rest), List.replicate_succ]

theorem chunkTrace_getLast (ms : Nat) : ∀ (cs : List (List String)), cs ≠ [] →
    ∃ c, (chunkTrace ms cs).getLast? = some (ChunkEvent.dispatch c)
  | [], h => absurd rfl h
  | [c], _ => ⟨c, rfl⟩
  | c :: c2 :: rest, _ => by
    cases rest with
    | nil => exact ⟨c2, rfl⟩
    | cons c3 rest2 =>
      obtain ⟨c', hc'⟩ := chunkTrace_getLast ms (c2 :: c3 :: rest2) (by simp)
      refine ⟨c', ?_⟩
      show (ChunkEvent.dispatch c :: ChunkEvent.pause ms ::
        chunkTrace ms (c2 :: c3 :: rest2)).getLast? = _
      rw [List.getLast?_cons_cons]
      have hshape : chunkTrace ms (c2 :: c3 :: rest2) =
          ChunkEvent.dispatch c2 :: ChunkEvent.pause ms :: chunkTrace ms (c3 :: rest2) := rfl
      rw [hshape, List.getLast?_cons_cons, ← hshape]
      exact hc'

theorem chunksOf_ne_nil {α : Type} (n : Nat) (l : List α) (h : l ≠ []) :
    chunksOf n l ≠ [] := by
  cases l with
  | nil => exact absurd rfl h
  | cons x xs =>
    rw [chunksOf]
    by_cases h2 : n = 0
    · simp [h2]
    · simp [h2]

theorem topBuys_pair_eval :
    topBuysOf [stockRsi50, stockRsi0] = [stockRsi50, stockRsi0] := by
  unfold topBuysOf
  have hfil : [stockRsi50, stockRsi0].filter
      (fun stock => stock.recommendedSignal == some "STRONG BUY") =
      [stockRsi50, stockRsi0] := by decide
  rw [hfil]
  have hsorted : List.Pairwise
      (fun a b => (decide (jsOrNum a.rsi 100 ≤ jsOrNum b.rsi 100)) = true)
      [stockRsi50, stockRsi0] := by decide
  rw [List.mergeSort_of_sorted hsorted]
  rfl

/-! ### Claim theorems -/

/-- C2: while the service-availability flag is false, the scan entry point
aborts at the gate: no quote, historical or analysis call is made, and the
only event emitted is one scan-status event saying the scan is paused because
the analysis service is offline. -/
theorem gate_offline_aborts_cycle (env : ScanEnv)
    (h : env.isPythonServiceHealthy = false) :
    fetchAndEmitStockUpdates env =
      { events := [Event.scanStatus "Scan paused: Analysis service is offline." "error"]
        quoteCalled := false, historicalCalled := false, analysisCalled := false } :=
  scan_skips_when_unhealthy env h

theorem gate_offline_aborts_cycle_witness :
    envOffline.isPythonServiceHealthy = false ∧
    fetchAndEmitStockUpdates envOffline =
      { events := [Event.scanStatus "Scan paused: Analysis service is offline." "error"]
        quoteCalled := false, historicalCalled := false, analysisCalled := false } :=
  ⟨rfl, gate_offline_aborts_cycle envOffline rfl⟩

/-- C3: when the bulk quote fetch fails (or its 20-second timeout fires, which
surfaces as the same rejection), the cycle aborts as fatal: an error
scan-status event and a distinct fetch-error event are both emitted, the
historical and analysis stages never run, and no stock-data event is
broadcast. -/
theorem quote_failure_aborts_cycle (env : ScanEnv) (msg : String)
    (hh : env.isPythonServiceHealthy = true)
    (hs : (getCombinedTrackedSymbols env.defaultSymbols env.dbWatchlistSymbols).length ≠ 0)
    (hq : env.quoteResult = Except.error msg) :
    fetchAndEmitStockUpdates env =
      { events := [Event.scanStatus ("Scan failed: " ++ msg) "error",
          Event.fetchError "Unified scan failed. The data provider might be temporarily unavailable."]
        quoteCalled := true, historicalCalled := false, analysisCalled := false } ∧
    (∀ e ∈ (fetchAndEmitStockUpdates env).events, isStockDataEvent e = false) := by
  have heq : fetchAndEmitStockUpdates env =
      { events := [Event.scanStatus ("Scan failed: " ++ msg) "error",
          Event.fetchError "Unified scan failed. The data provider might be temporarily unavailable."]
        quoteCalled := true, historicalCalled := false, analysisCalled := false } := by
    simp [fetchAndEmitStockUpdates, hh, hs, hq]
  refine ⟨heq, ?_⟩
  intro e he
  rw [heq] at he
  simp only [List.mem_cons, List.not_mem_nil, or_false] at he
  rcases he with rfl | rfl <;> rfl

theorem quote_failure_aborts_cycle_witness :
    envQuoteTimeout.isPythonServiceHealthy = true ∧
    (getCombinedTrackedSymbols envQuoteTimeout.defaultSymbols
      envQuoteTimeout.dbWatchlistSymbols).length ≠ 0 ∧
    envQuoteTimeout.quoteResult = Except.error "Yahoo Finance quote API call timed out" ∧
    fetchAndEmitStockUpdates envQuoteTimeout =
      { events := [Event.scanStatus
            ("Scan failed: " ++ "Yahoo Finance quote API call timed out") "error",
          Event.fetchError "Unified scan failed. The data provider might be temporarily unavailable."]
        quoteCalled := true, historicalCalled := false, analysisCalled := false } :=
  ⟨rfl, by decide, rfl,
    (quote_failure_aborts_cycle envQuoteTimeout "Yahoo Finance quote API call timed out"
      rfl (by decide) rfl).1⟩

/-- C4 counterexample: with the gate open and an empty resolved universe, the
cycle emits no event at all — in particular no "no symbols" status event, the
cycle only logs and returns. -/
theorem empty_universe_no_status_event :
    envNoSymbols.isPythonServiceHealthy = true ∧
    getCombinedTrackedSymbols envNoSymbols.defaultSymbols envNoSymbols.dbWatchlistSymbols = [] ∧
    (fetchAndEmitStockUpdates envNoSymbols).events = [] :=
  ⟨rfl, rfl, rfl⟩

/-- C4 amended: when the resolved symbol universe is empty the cycle aborts
terminally before any provider call and broadcasts nothing — but it emits no
status event either (the skip is only logged to the console). -/
theorem empty_universe_silent_abort (env : ScanEnv)
    (hh : env.isPythonServiceHealthy = true)
    (hs : (getCombinedTrackedSymbols env.defaultSymbols env.dbWatchlistSymbols).length = 0) :
    fetchAndEmitStockUpdates env =
      { events := [], quoteCalled := false, historicalCalled := false, analysisCalled := false } := by
  simp [fetchAndEmitStockUpdates, hh, hs]

theorem empty_universe_silent_abort_witness :
    envNoSymbols.isPythonServiceHealthy = true ∧
    (getCombinedTrackedSymbols envNoSymbols.defaultSymbols
      envNoSymbols.dbWatchlistSymbols).length = 0 ∧
    fetchAndEmitStockUpdates envNoSymbols =
      { events := [], quoteCalled := false, historicalCalled := false, analysisCalled := false } :=
  ⟨rfl, rfl, empty_universe_silent_abort envNoSymbols rfl rfl⟩

/-- C7: the per-symbol historical fetch makes up to two attempts with a
`500 * attemptNumber` backoff: an immediate success uses one attempt and no
delay; a failure followed by a success returns the successful history after
exactly one retry and one delay; a failure of the final attempt yields an
empty series as a returned value, and the stage still produces a map entry
for the symbol (the cycle continues). -/
theorem historical_retry_backoff (oc : Nat → Except String (List Bar)) (e1 e2 : String)
    (h : List Bar) :
    (oc 1 = Except.ok h →
      fetchHistoricalOne oc = { history := h, attemptsMade := 1, delays := [] }) ∧
    (oc 1 = Except.error e1 → oc 2 = Except.ok h →
      fetchHistoricalOne oc = { history := h, attemptsMade := 2, delays := [500 * 1] }) ∧
    (oc 1 = Except.error e1 → oc 2 = Except.error e2 →
      fetchHistoricalOne oc = { history := [], attemptsMade := 2, delays := [500 * 1] }) ∧
    (∀ (syms : List String) (ocs : String → Nat → Except String (List Bar))
        (ct : Nat → Bool) (s : String), (∀ j, ct j = false) → s ∈ syms →
      mapGet (fetchAllHistoricalData syms ocs ct) s =
        some (fetchHistoricalOne (ocs s)).history) := by
  refine ⟨?_, ?_, ?_, ?_⟩
  · intro h1
    simp [fetchHistoricalOne, maxRetries, retryGo, h1]
  · intro h1 h2
    simp [fetchHistoricalOne, maxRetries, retryGo, h1, h2]
  · intro h1 h2
    simp [fetchHistoricalOne, maxRetries, retryGo, h1, h2]
  · intro syms ocs ct s hct hs
    rw [fetchAllHistoricalData_no_timeout syms ocs ct hct]
    exact mapGet_map_self (fun s => (fetchHistoricalOne (ocs s)).history) syms s hs

theorem historical_retry_backoff_witness :
    ((fun k => if k = 1 then Except.error "HTTP 429"
        else Except.ok [sampleBar] : Nat → Except String (List Bar)) 1 =
      Except.error "HTTP 429") ∧
    fetchHistoricalOne (fun k => if k = 1 then Except.error "HTTP 429"
        else Except.ok [sampleBar]) =
      { history := [sampleBar], attemptsMade := 2, delays := [500 * 1] } :=
  ⟨rfl, (historical_retry_backoff
      (fun k => if k = 1 then Except.error "HTTP 429" else Except.ok [sampleBar])
      "HTTP 429" "HTTP 429" [sampleBar]).2.1 rfl rfl⟩

/-- C5 (the breaker implementation lives in the opossum library, so its state
machine is modelled from the spec; the thresholds come from `breakerOptions`
in server.js): once the windowed failure ratio reaches 50% the breaker is
OPEN; while OPEN and inside the 30s cool-down every call fast-fails with the
distinguished breaker-open error without invoking the dependency; the first
call after the cool-down is the single trial call, whose success closes the
breaker and resets the counters and whose failure reopens it with a fresh
cool-down (blocking the next call again); a request slower than the 15s
timeout counts as a failure. -/
theorem circuit_breaker_contract (b : Breaker) (now : Nat) (o : CallOutcome) :
    (b.state = BreakerState.closed → isFailureOutcome breakerOptions o = true →
      50 * (b.failureCount + 1 + b.successCount) ≤ 100 * (b.failureCount + 1) →
      (breakerCall breakerOptions b now o).1.state = BreakerState.opened) ∧
    (b.state = BreakerState.opened → now < b.openedAt + 30000 →
      (breakerCall breakerOptions b now o).2.invoked = false ∧
      (breakerCall breakerOptions b now o).2.result = CallResult.breakerOpenErr ∧
      (breakerCall breakerOptions b now o).1 = b) ∧
    (b.state = BreakerState.opened → b.openedAt + 30000 ≤ now →
      (breakerCall breakerOptions b now o).2.invoked = true ∧
      (isFailureOutcome breakerOptions o = false →
        (breakerCall breakerOptions b now o).1 =
          { state := BreakerState.closed, failureCount := 0, successCount := 0
            openedAt := b.openedAt }) ∧
      (isFailureOutcome breakerOptions o = true →
        (breakerCall breakerOptions b now o).1.state = BreakerState.opened ∧
        (breakerCall breakerOptions b now o).1.openedAt = now)) ∧
    (∀ (now2 : Nat) (o2 : CallOutcome), b.state = BreakerState.opened →
      b.openedAt + 30000 ≤ now → isFailureOutcome breakerOptions o = true →
      now2 < now + 30000 →
      (breakerCall breakerOptions (breakerCall breakerOptions b now o).1 now2 o2).2.invoked
        = false) ∧
    (∀ d : Nat, 15000 ≤ d →
      isFailureOutcome breakerOptions (CallOutcome.success d) = true) := by
  refine ⟨?_, ?_, ?_, ?_, ?_⟩
  · intro h1 h2 h3
    have h3' : breakerOptions.errorThresholdPercentage *
        (b.failureCount + 1 + b.successCount) ≤ 100 * (b.failureCount + 1) := h3
    simp [breakerCall, h1, h2, h3']
  · intro h1 h2
    have hlt : now < b.openedAt + breakerOptions.resetTimeout := h2
    simp [breakerCall, h1, hlt]
  · intro h1 h2
    have hlt : ¬ (now < b.openedAt + breakerOptions.resetTimeout) := by
      simp only [breakerOptions] at h2 ⊢
      omega
    refine ⟨?_, ?_, ?_⟩
    · cases hio : isFailureOutcome breakerOptions o <;>
        simp [breakerCall, breakerTrial, h1, hlt, hio]
    · intro hio
      simp [breakerCall, breakerTrial, h1, hlt, hio]
    · intro hio
      simp [breakerCall, breakerTrial, h1, hlt, hio]
  · intro now2 o2 h1 h2 hio hlt2
    have hlt : ¬ (now < b.openedAt + breakerOptions.resetTimeout) := by
      simp only [breakerOptions] at h2 ⊢
      omega
    have hstep : (breakerCall breakerOptions b now o).1 =
        { state := BreakerState.opened, failureCount := b.failureCount
          successCount := b.successCount, openedAt := now } := by
      simp [breakerCall, breakerTrial, h1, hlt, hio]
    rw [hstep]
    have hlt2' : now2 < now + breakerOptions.resetTimeout := hlt2
    simp [breakerCall, hlt2']
  · intro d hd
    simp [isFailureOutcome, breakerOptions, hd]

theorem circuit_breaker_contract_witness :
    ((⟨BreakerState.closed, 0, 0, 0⟩ : Breaker).state = BreakerState.closed ∧
      (breakerCall breakerOptions ⟨BreakerState.closed, 0, 0, 0⟩ 5
        CallOutcome.failure).1.state = BreakerState.opened) ∧
    ((breakerCall breakerOptions ⟨BreakerState.opened, 1, 0, 1000⟩ 2000
        CallOutcome.failure).2.invoked = false ∧
      (breakerCall breakerOptions ⟨BreakerState.opened, 1, 0, 1000⟩ 2000
        CallOutcome.failure).2.result = CallResult.breakerOpenErr) ∧
    ((breakerCall breakerOptions ⟨BreakerState.opened, 1, 0, 1000⟩ 40000
        (CallOutcome.success 100)).2.invoked = true ∧
      (breakerCall breakerOptions ⟨BreakerState.opened, 1, 0, 1000⟩ 40000
        (CallOutcome.success 100)).1 =
        { state := BreakerState.closed, failureCount := 0, successCount := 0
          openedAt := 1000 }) ∧
    (breakerCall breakerOptions
      (breakerCall breakerOptions ⟨BreakerState.opened, 1, 0, 1000⟩ 40000
        CallOutcome.failure).1 50000 CallOutcome.failure).2.invoked = false ∧
    isFailureOutcome breakerOptions (CallOutcome.success 15000) = true := by
  refine ⟨⟨rfl, ?_⟩, ⟨?_, ?_⟩, ⟨?_, ?_⟩, ?_, ?_⟩
  · exact (circuit_breaker_contract ⟨BreakerState.closed, 0, 0, 0⟩ 5
      CallOutcome.failure).1 rfl rfl (by decide)
  · exact ((circuit_breaker_contract ⟨BreakerState.opened, 1, 0, 1000⟩ 2000
      CallOutcome.failure).2.1 rfl (by decide)).1
  · exact ((circuit_breaker_contract ⟨BreakerState.opened, 1, 0, 1000⟩ 2000
      CallOutcome.failure).2.1 rfl (by decide)).2.1
  · exact ((circuit_breaker_contract ⟨BreakerState.opened, 1, 0, 1000⟩ 40000
      (CallOutcome.success 100)).2.2.1 rfl (by decide)).1
  · exact ((circuit_breaker_contract ⟨BreakerState.opened, 1, 0, 1000⟩ 40000
      (CallOutcome.success 100)).2.2.1 rfl (by decide)).2.1 (by decide)
  · exact (circuit_breaker_contract ⟨BreakerState.opened, 1, 0, 1000⟩ 40000
      CallOutcome.failure).2.2.2.1 50000 CallOutcome.failure rfl (by decide) rfl (by decide)
  · exact (circuit_breaker_contract ⟨BreakerState.opened, 1, 0, 1000⟩ 40000
      CallOutcome.failure).2.2.2.2 15000 (by decide)

theorem foldl_stepHealth_true : ∀ (events : List HealthEvent) (init : Bool),
    events.foldl stepHealth init = true →
    init = true ∨ HealthEvent.probeOk ∈ events ∨ HealthEvent.breakerClosed ∈ events
  | [], _, h => Or.inl h
  | e :: rest, init, h => by
    rcases foldl_stepHealth_true rest (stepHealth init e) h with h1 | h2 | h3
    · cases e with
      | probeOk => exact Or.inr (Or.inl (List.mem_cons_self _ _))
      | breakerClosed => exact Or.inr (Or.inr (List.mem_cons_self _ _))
      | probeFail => exact absurd h1 (by simp [stepHealth])
      | breakerOpened => exact absurd h1 (by simp [stepHealth])
    · exact Or.inr (Or.inl (List.mem_cons_of_mem _ h2))
    · exact Or.inr (Or.inr (List.mem_cons_of_mem _ h3))

/-- C10: the service-availability flag starts false at process start; it can
only become true through a successful health probe or a breaker close event;
and any scan trigger that runs while the flag is false is skipped at the
gate without any provider or analysis call, emitting only the paused status
event. -/
theorem startup_flag_gates_scans :
    initialPythonServiceHealthy = false ∧
    (∀ events : List HealthEvent, runHealth events = true →
      HealthEvent.probeOk ∈ events ∨ HealthEvent.breakerClosed ∈ events) ∧
    (∀ env : ScanEnv, env.isPythonServiceHealthy = false →
      fetchAndEmitStockUpdates env =
        { events := [Event.scanStatus "Scan paused: Analysis service is offline." "error"]
          quoteCalled := false, historicalCalled := false, analysisCalled := false }) := by
  refine ⟨rfl, ?_, ?_⟩
  · intro events h
    rcases foldl_stepHealth_true events initialPythonServiceHealthy h with h1 | h2 | h3
    · cases h1
    · exact Or.inl h2
    · exact Or.inr h3
  · intro env h
    exact scan_skips_when_unhealthy env h

theorem startup_flag_gates_scans_witness :
    runHealth [HealthEvent.probeOk] = true ∧
    (HealthEvent.probeOk ∈ [HealthEvent.probeOk] ∨
      HealthEvent.breakerClosed ∈ [HealthEvent.probeOk]) ∧
    envStartup.isPythonServiceHealthy = false ∧
    fetchAndEmitStockUpdates envStartup =
      { events := [Event.scanStatus "Scan paused: Analysis service is offline." "error"]
        quoteCalled := false, historicalCalled := false, analysisCalled := false } :=
  ⟨rfl, startup_flag_gates_scans.2.1 [HealthEvent.probeOk] rfl, rfl,
    startup_flag_gates_scans.2.2 envStartup rfl⟩

/-- C1: every record produced by the analysis/aggregation stage (and hence
every AnalyzedStock in the broadcast output) belongs to the symbol universe
the stage was run on, has a quote present in the quote map, a usable history,
and a non-null analysis result; symbols missing any of these are dropped. -/
theorem analyzedStocks_subset_and_complete (symbolsToFetch : List String)
    (quoteResults : List Quote) (historicalDataMap : String → Option (List Bar))
    (strategies : List StrategyDef)
    (analyzeFn : Quote → List Bar → List StrategyDef → Option AnalysisResult)
    (st : AnalyzedStock)
    (hst : st ∈ analyzeAllStocks symbolsToFetch
      (mapGet (quoteResults.map (fun q => (q.symbol, q)))) historicalDataMap
      strategies analyzeFn) :
    st.symbol ∈ symbolsToFetch ∧
    (∃ q, mapGet (quoteResults.map (fun q => (q.symbol, q))) st.symbol = some q ∧
      ∃ history, historicalDataMap st.symbol = some history ∧ history.length ≠ 0 ∧
        ∃ r, analyzeFn q history strategies = some r) := by
  rw [analyzeAllStocks_eq_filterMap, List.mem_filterMap] at hst
  obtain ⟨s, hs, heq⟩ := hst
  unfold analyzeOne at heq
  cases hq : mapGet (quoteResults.map (fun q => (q.symbol, q))) s with
  | none => rw [hq] at heq; cases heq
  | some q =>
    rw [hq] at heq
    cases hh : historicalDataMap s with
    | none =>
      simp only [hh] at heq
      cases heq
    | some history =>
      simp only [hh] at heq
      by_cases hlen : history.length = 0
      · rw [if_pos hlen] at heq; cases heq
      · rw [if_neg hlen] at heq
        cases hr : analyzeFn q history strategies with
        | none => rw [hr] at heq; cases heq
        | some r =>
          rw [hr] at heq
          have hstq : st.symbol = q.symbol := by cases heq; rfl
          have hqs : q.symbol = s := mapGet_quote_symbol quoteResults s q hq
          rw [hstq, hqs]
          exact ⟨hs, q, hq, history, hh, hlen, r, hr⟩

theorem analyzedStocks_subset_and_complete_witness :
    sampleAnalyzedStock ∈ analyzeAllStocks ["RELIANCE.NS"]
      (mapGet ([sampleQuote].map (fun q => (q.symbol, q))))
      (fun _ => some [sampleBar]) [] (fun _ _ _ => some sampleAnalysis) ∧
    sampleAnalyzedStock.symbol ∈ ["RELIANCE.NS"] ∧
    (∃ q, mapGet ([sampleQuote].map (fun q => (q.symbol, q)))
        sampleAnalyzedStock.symbol = some q ∧
      ∃ history, (fun (_ : String) => some [sampleBar]) sampleAnalyzedStock.symbol
          = some history ∧ history.length ≠ 0 ∧
        ∃ r, (fun (_ : Quote) (_ : List Bar) (_ : List StrategyDef) =>
          some sampleAnalysis) q history [] = some r) := by
  have hmem : sampleAnalyzedStock ∈ analyzeAllStocks ["RELIANCE.NS"]
      (mapGet ([sampleQuote].map (fun q => (q.symbol, q))))
      (fun _ => some [sampleBar]) [] (fun _ _ _ => some sampleAnalysis) := by
    rw [analyzeAllStocks_eq_filterMap]
    decide
  refine ⟨hmem, ?_⟩
  exact analyzedStocks_subset_and_complete ["RELIANCE.NS"] [sampleQuote]
    (fun _ => some [sampleBar]) [] (fun _ _ _ => some sampleAnalysis)
    sampleAnalyzedStock hmem

/-- C6: for N symbols the historical stage dispatches exactly ceil(N/25)
batches and the analysis stage exactly ceil(N/10); the only pauses are 250 ms
ones between consecutive chunks (one fewer than the number of batches, and
the trace never ends in a pause); and per-item isolation holds: each symbol's
historical entry depends only on that symbol's own outcomes, and the analysis
stage is pointwise over the symbol list, so one item's failure cannot affect
sibling items or later chunks. -/
theorem chunked_stage_batches_and_isolation (symbolsToFetch : List String) :
    ((fetchAllHistoricalDataTrace symbolsToFetch).filter isDispatch).length =
      (symbolsToFetch.length + 24) / 25 ∧
    ((analyzeAllStocksTrace symbolsToFetch).filter isDispatch).length =
      (symbolsToFetch.length + 9) / 10 ∧
    (fetchAllHistoricalDataTrace symbolsToFetch).filter isPause =
      List.replicate
        (((fetchAllHistoricalDataTrace symbolsToFetch).filter isDispatch).length - 1)
        (ChunkEvent.pause 250) ∧
    (analyzeAllStocksTrace symbolsToFetch).filter isPause =
      List.replicate
        (((analyzeAllStocksTrace symbolsToFetch).filter isDispatch).length - 1)
        (ChunkEvent.pause 250) ∧
    (symbolsToFetch ≠ [] →
      (∃ c, (fetchAllHistoricalDataTrace symbolsToFetch).getLast? =
        some (ChunkEvent.dispatch c)) ∧
      (∃ c, (analyzeAllStocksTrace symbolsToFetch).getLast? =
        some (ChunkEvent.dispatch c))) ∧
    (∀ (ocs : String → Nat → Except String (List Bar)) (ct : Nat → Bool) (s : String),
      (∀ j, ct j = false) → s ∈ symbolsToFetch →
      mapGet (fetchAllHistoricalData symbolsToFetch ocs ct) s =
        some (fetchHistoricalOne (ocs s)).history) ∧
    (∀ (qm : String → Option Quote) (hm : String → Option (List Bar))
        (strategies : List StrategyDef)
        (analyzeFn : Quote → List Bar → List StrategyDef → Option AnalysisResult),
      analyzeAllStocks symbolsToFetch qm hm strategies analyzeFn =
        symbolsToFetch.filterMap (analyzeOne qm hm strategies analyzeFn)) := by
  refine ⟨?_, ?_, ?_, ?_, ?_, ?_, ?_⟩
  · unfold fetchAllHistoricalDataTrace
    rw [chunkTrace_dispatch_count]
    rw [chunksOf_length historicalChunkSize (by decide) symbolsToFetch]
    rfl
  · unfold analyzeAllStocksTrace
    rw [chunkTrace_dispatch_count]
    rw [chunksOf_length analysisChunkSize (by decide) symbolsToFetch]
    rfl
  · unfold fetchAllHistoricalDataTrace
    rw [chunkTrace_pause_filter, chunkTrace_dispatch_count]
  · unfold analyzeAllStocksTrace
    rw [chunkTrace_pause_filter, chunkTrace_dispatch_count]
  · intro hne
    constructor
    · exact chunkTrace_getLast 250 _ (chunksOf_ne_nil historicalChunkSize symbolsToFetch hne)
    · exact chunkTrace_getLast 250 _ (chunksOf_ne_nil analysisChunkSize symbolsToFetch hne)
  · intro ocs ct s hct hs
    rw [fetchAllHistoricalData_no_timeout symbolsToFetch ocs ct hct]
    exact mapGet_map_self (fun s => (fetchHistoricalOne (ocs s)).history) symbolsToFetch s hs
  · intro qm hm strategies analyzeFn
    exact analyzeAllStocks_eq_filterMap symbolsToFetch qm hm strategies analyzeFn

theorem chunked_stage_batches_and_isolation_witness :
    syms12 ≠ [] ∧
    (∃ c, (fetchAllHistoricalDataTrace syms12).getLast? = some (ChunkEvent.dispatch c)) ∧
    (∃ c, (analyzeAllStocksTrace syms12).getLast? = some (ChunkEvent.dispatch c)) ∧
    "S03" ∈ syms12 ∧
    mapGet (fetchAllHistoricalData syms12
        (fun _ _ => Except.error "provider down") (fun _ => false)) "S03" =
      some (fetchHistoricalOne ((fun (_ : String) (_ : Nat) =>
        (Except.error "provider down" : Except String (List Bar))) "S03")).history := by
  refine ⟨by decide, ?_, ?_, by decide, ?_⟩
  · exact ((chunked_stage_batches_and_isolation syms12).2.2.2.2.1 (by decide)).1
  · exact ((chunked_stage_batches_and_isolation syms12).2.2.2.2.1 (by decide)).2
  · exact (chunked_stage_batches_and_isolation syms12).2.2.2.2.2.1
      (fun _ _ => Except.error "provider down") (fun _ => false) "S03"
      (fun _ => rfl) (by decide)

/-- C8: the fast-accumulator ranking considers only stocks of the configured
F&O subset; every ranked stock has strictly positive percent change and
usable (non-zero) volume data, a strictly positive score equal to
`0.7 * volumeRatio + 0.3 * percentChange`; a stock with percent change 5,
volume 300 and average volume 100 scores 3.6; non-positive percent change
always yields the sentinel score -1 (excluded); and the result is the top 5
by descending score. -/
theorem fast_accumulator_ranking (allStocks : List AnalyzedStock) (fno : List String) :
    (∀ s ∈ getFastVolumeAccumulators allStocks fno,
      s.stock ∈ allStocks ∧ fno.contains s.stock.symbol = true ∧ 0 < s.score ∧
      0 < jsOrNum s.stock.change 0 ∧
      numTruthy s.stock.volume = true ∧
      numTruthy (s.stock.indicators.bind (fun i => i.avgVolume20)) = true ∧
      s.score = (s.stock.volume.getD 0 /
          (s.stock.indicators.bind (fun i => i.avgVolume20)).getD 0) * 0.7 +
        jsOrNum s.stock.change 0 * 0.3) ∧
    (∀ st : AnalyzedStock, st.change = some 5 → st.volume = some 300 →
      st.indicators.bind (fun i => i.avgVolume20) = some 100 →
      (scoreStock st).score = 3.6) ∧
    (∀ st : AnalyzedStock, jsOrNum st.change 0 ≤ 0 → (scoreStock st).score = -1) ∧
    (getFastVolumeAccumulators allStocks fno).length =
      min 5 (((allStocks.filter (fun s => fno.contains s.symbol)).map scoreStock).filter
        (fun stock => decide (0 < stock.score))).length ∧
    List.Pairwise (fun a b : ScoredStock => b.score ≤ a.score)
      (getFastVolumeAccumulators allStocks fno) := by
  refine ⟨?_, ?_, ?_, ?_, ?_⟩
  · intro s hs
    unfold getFastVolumeAccumulators at hs
    have hs1 := List.mem_of_mem_take hs
    rw [List.mem_mergeSort, List.mem_filter] at hs1
    obtain ⟨hs2, hpos⟩ := hs1
    rw [List.mem_map] at hs2
    obtain ⟨st, hstmem, hsc⟩ := hs2
    rw [List.mem_filter] at hstmem
    obtain ⟨hstall, hstfno⟩ := hstmem
    have hpos' : 0 < s.score := of_decide_eq_true hpos
    by_cases hg : (jsOrNum st.change 0 ≤ 0 ∨ numTruthy st.volume = false ∨
        numTruthy (st.indicators.bind (fun i => i.avgVolume20)) = false)
    · exfalso
      have hneg : s.score = -1 := by
        rw [← hsc]
        simp only [scoreStock]
        rw [if_pos hg]
      rw [hneg] at hpos'
      norm_num at hpos'
    · push_neg at hg
      obtain ⟨hg1, hg2, hg3⟩ := hg
      have hsc' := hsc
      simp only [scoreStock] at hsc'
      rw [if_neg (by push_neg; exact ⟨hg1, hg2, hg3⟩)] at hsc'
      cases hsc'
      refine ⟨hstall, hstfno, hpos', hg1, ?_, ?_, rfl⟩
      · cases hb : numTruthy st.volume with
        | false => exact absurd hb hg2
        | true => rfl
      · cases hb : numTruthy (st.indicators.bind (fun i => i.avgVolume20)) with
        | false => exact absurd hb hg3
        | true => rfl
  · intro st h1 h2 h3
    simp only [scoreStock, h1, h2, h3, jsOrNum, numTruthy]
    norm_num
  · intro st hc
    simp only [scoreStock]
    rw [if_pos (Or.inl hc)]
  · unfold getFastVolumeAccumulators
    rw [List.length_take, List.length_mergeSort]
  · have hsorted : List.Pairwise
        (fun a b : ScoredStock => decide (b.score ≤ a.score) = true)
        ((((allStocks.filter (fun s => fno.contains s.symbol)).map scoreStock).filter
          (fun stock => decide (0 < stock.score))).mergeSort
          (fun a b => decide (b.score ≤ a.score))) := by
      apply List.sorted_mergeSort
      · intro a b c hab hbc
        simp only [decide_eq_true_eq] at hab hbc ⊢
        exact le_trans hbc hab
      · intro a b
        simp only [Bool.or_eq_true, decide_eq_true_eq]
        exact le_total b.score a.score
    have hp := hsorted.imp (fun {a b} h => of_decide_eq_true h)
    exact List.Pairwise.sublist (List.take_sublist 5 _) hp

theorem fast_accumulator_ranking_witness :
    (⟨accumStock, 3.6⟩ : ScoredStock) ∈
      getFastVolumeAccumulators [accumStock] configFnoSymbols ∧
    (⟨accumStock, (3.6 : Rat)⟩ : ScoredStock).stock ∈ [accumStock] ∧
    configFnoSymbols.contains accumStock.symbol = true ∧
    (scoreStock accumStock).score = 3.6 ∧
    (scoreStock baseStock).score = -1 := by
  have hscore : scoreStock accumStock = ⟨accumStock, (3.6 : Rat)⟩ := by
    simp only [scoreStock, accumStock, baseStock, jsOrNum, numTruthy, Option.bind]
    norm_num
  have heval : getFastVolumeAccumulators [accumStock] configFnoSymbols =
      [⟨accumStock, (3.6 : Rat)⟩] := by
    simp only [getFastVolumeAccumulators]
    have hfil : [accumStock].filter (fun s => configFnoSymbols.contains s.symbol) =
        [accumStock] := by decide
    rw [hfil, List.map_cons, List.map_nil, hscore]
    have hfil2 : [(⟨accumStock, (3.6 : Rat)⟩ : ScoredStock)].filter
        (fun stock => decide (0 < stock.score)) = [⟨accumStock, (3.6 : Rat)⟩] := by
      norm_num [List.filter]
    rw [hfil2, List.mergeSort_singleton]
    rfl
  have hmem : (⟨accumStock, (3.6 : Rat)⟩ : ScoredStock) ∈
      getFastVolumeAccumulators [accumStock] configFnoSymbols := by
    rw [heval]
    exact List.mem_cons_self _ _
  have hfacts := (fast_accumulator_ranking [accumStock] configFnoSymbols).1
    ⟨accumStock, (3.6 : Rat)⟩ hmem
  refine ⟨hmem, hfacts.1, hfacts.2.1, ?_, ?_⟩
  · exact (fast_accumulator_ranking [accumStock] configFnoSymbols).2.1 accumStock
      rfl rfl rfl
  · exact (fast_accumulator_ranking [accumStock] configFnoSymbols).2.2.1 baseStock
      (by simp [baseStock, jsOrNum])

/-- C9 counterexample: with two STRONG BUY stocks whose RSI values are 50 and
0, the emitted top-buy list is [rsi=50, rsi=0] — not ascending by the RSI
indicator, because the JavaScript sort key `(rsi || 100)` treats the falsy
RSI value 0 as 100.  The claim, which demands ascending RSI order, fails at
this input. -/
theorem top_buys_not_rsi_ascending :
    topBuysOf [stockRsi50, stockRsi0] = [stockRsi50, stockRsi0] ∧
    stockRsi50.rsi = some 50 ∧ stockRsi0.rsi = some 0 ∧
    ¬ List.Pairwise (fun a b => ∀ x y : Rat, a.rsi = some x → b.rsi = some y → x ≤ y)
      (topBuysOf [stockRsi50, stockRsi0]) := by
  refine ⟨topBuys_pair_eval, rfl, rfl, ?_⟩
  rw [topBuys_pair_eval]
  intro h
  cases h with
  | cons h1 _ =>
    have h2 := h1 stockRsi0 (List.mem_cons_self _ _)
    have h50 := h2 50 0 rfl rfl
    norm_num at h50

/-- C9 amended: the top-buy list is the first 5 STRONG BUY stocks sorted
ascending by the coalesced key `(rsi || 100)` (an absent or zero RSI counts
as 100), the top-sell list the first 5 STRONG SELL stocks sorted descending
by `(rsi || 0)`; ties are resolved stably by input order, and stocks with
other recommendation labels never appear in either list. -/
theorem top_lists_sorted_by_coalesced_rsi (mappedData : List AnalyzedStock) :
    (∀ s ∈ topBuysOf mappedData,
      s.recommendedSignal = some "STRONG BUY" ∧ s ∈ mappedData) ∧
    (∀ s ∈ topSellsOf mappedData,
      s.recommendedSignal = some "STRONG SELL" ∧ s ∈ mappedData) ∧
    (topBuysOf mappedData).length ≤ 5 ∧
    (topSellsOf mappedData).length ≤ 5 ∧
    List.Pairwise (fun a b => jsOrNum a.rsi 100 ≤ jsOrNum b.rsi 100)
      (topBuysOf mappedData) ∧
    List.Pairwise (fun a b => jsOrNum b.rsi 0 ≤ jsOrNum a.rsi 0)
      (topSellsOf mappedData) ∧
    (∀ a b : AnalyzedStock,
      List.Sublist [a, b] (mappedData.filter
        (fun stock => stock.recommendedSignal == some "STRONG BUY")) →
      jsOrNum a.rsi 100 ≤ jsOrNum b.rsi 100 →
      List.Sublist [a, b] ((mappedData.filter
        (fun stock => stock.recommendedSignal == some "STRONG BUY")).mergeSort
          (fun a b => decide (jsOrNum a.rsi 100 ≤ jsOrNum b.rsi 100)))) := by
  refine ⟨?_, ?_, ?_, ?_, ?_, ?_, ?_⟩
  · intro s hs
    unfold topBuysOf at hs
    have hs1 := List.mem_of_mem_take hs
    rw [List.mem_mergeSort, List.mem_filter] at hs1
    exact ⟨eq_of_beq hs1.2, hs1.1⟩
  · intro s hs
    unfold topSellsOf at hs
    have hs1 := List.mem_of_mem_take hs
    rw [List.mem_mergeSort, List.mem_filter] at hs1
    exact ⟨eq_of_beq hs1.2, hs1.1⟩
  · exact List.length_take_le 5 _
  · exact List.length_take_le 5 _
  · have hsorted : List.Pairwise
        (fun a b : AnalyzedStock =>
          decide (jsOrNum a.rsi 100 ≤ jsOrNum b.rsi 100) = true)
        ((mappedData.filter
          (fun stock => stock.recommendedSignal == some "STRONG BUY")).mergeSort
            (fun a b => decide (jsOrNum a.rsi 100 ≤ jsOrNum b.rsi 100))) := by
      apply List.sorted_mergeSort
      · intro a b c hab hbc
        simp only [decide_eq_true_eq] at hab hbc ⊢
        exact le_trans hab hbc
      · intro a b
        simp only [Bool.or_eq_true, decide_eq_true_eq]
        exact le_total _ _
    have hp := hsorted.imp (fun {a b} h => of_decide_eq_true h)
    exact List.Pairwise.sublist (List.take_sublist 5 _) hp
  · have hsorted : List.Pairwise
        (fun a b : AnalyzedStock =>
          decide (jsOrNum b.rsi 0 ≤ jsOrNum a.rsi 0) = true)
        ((mappedData.filter
          (fun stock => stock.recommendedSignal == some "STRONG SELL")).mergeSort
            (fun a b => decide (jsOrNum b.rsi 0 ≤ jsOrNum a.rsi 0))) := by
      apply List.sorted_mergeSort
      · intro a b c hab hbc
        simp only [decide_eq_true_eq] at hab hbc ⊢
        exact le_trans hbc hab
      · intro a b
        simp only [Bool.or_eq_true, decide_eq_true_eq]
        exact le_total _ _
    have hp := hsorted.imp (fun {a b} h => of_decide_eq_true h)
    exact List.Pairwise.sublist (List.take_sublist 5 _) hp
  · intro a b hsub hle
    apply List.pair_sublist_mergeSort
    · intro a b c hab hbc
      simp only [decide_eq_true_eq] at hab hbc ⊢
      exact le_trans hab hbc
    · intro a b
      simp only [Bool.or_eq_true, decide_eq_true_eq]
      exact le_total _ _
    · exact decide_eq_true hle
    · exact hsub

theorem top_lists_sorted_by_coalesced_rsi_witness :
    stockRsi50 ∈ topBuysOf [stockRsi50, stockRsi0] ∧
    stockRsi50.recommendedSignal = some "STRONG BUY" ∧
    stockRsi50 ∈ [stockRsi50, stockRsi0] ∧
    List.Sublist [stockRsi50, stockRsi0]
      (([stockRsi50, stockRsi0].filter
        (fun stock => stock.recommendedSignal == some "STRONG BUY")).mergeSort
          (fun a b => decide (jsOrNum a.rsi 100 ≤ jsOrNum b.rsi 100))) := by
  have hmem : stockRsi50 ∈ topBuysOf [stockRsi50, stockRsi0] := by
    rw [topBuys_pair_eval]
    exact List.mem_cons_self _ _
  have hfacts := (top_lists_sorted_by_coalesced_rsi [stockRsi50, stockRsi0]).1
    stockRsi50 hmem
  refine ⟨hmem, hfacts.1, hfacts.2, ?_⟩
  apply (top_lists_sorted_by_coalesced_rsi [stockRsi50, stockRsi0]).2.2.2.2.2.2
    stockRsi50 stockRsi0
  · have hfil : [stockRsi50, stockRsi0].filter
        (fun stock => stock.recommendedSignal == some "STRONG BUY") =
        [stockRsi50, stockRsi0] := by decide
    rw [hfil]
  · decide

end StockDashboard
